import Mathlib

/-
Shallow embedding of src/multiconfig/multiconfig.py (the `multiconfig`
package): a configuration-value resolution layer that merges values for
named items from several sources, with per-item coercion, accumulation,
defaulting and required-value enforcement.

Conventions of the embedding:
* Python values flowing through the library are modelled by `PyVal`.
* The module-level sentinel `NONE` (an instance of the private `_None`
  class, distinct from Python `None`) is modelled by `Option.none` at the
  places the code stores "value or NONE"; Python's real `None` is
  `PyVal.none`.
* Python exceptions are modelled by `PyErr`; exception message strings are
  elided except for the data the claims need (item name, offending value).
* A coercion function (the `type` argument) is modelled as
  `PyVal -> Option PyVal`, `Option.none` meaning the call raised.  The
  `callable(type)` construction check of `_set_type` is outside the model:
  every Lean function is invokable.
* Namespaces (`multiconfig.Namespace`) are modelled as ordered association
  lists `List (String × PyVal)`; `setattr` replaces in place or appends,
  matching Python attribute-dict insertion order.
-/

namespace Multiconfig

/-- Values manipulated by the library: strings, ints, bools, lists,
Python `None`, and the `PRESENT_WITHOUT_VALUE` tag object. -/
inductive PyVal where
  | str (s : String)
  | int (n : Int)
  | bool (b : Bool)
  | list (xs : List PyVal)
  | none
  | presentWithoutValue

mutual

/-- Boolean equality on `PyVal`, written by hand because automatic
derivation does not handle the nested `List PyVal`. -/
def PyVal.beq : PyVal → PyVal → Bool
  | .str a, .str b => a = b
  | .int a, .int b => a = b
  | .bool a, .bool b => a = b
  | .list xs, .list ys => PyVal.beqList xs ys
  | .none, .none => true
  | .presentWithoutValue, .presentWithoutValue => true
  | _, _ => false

/-- Boolean equality on lists of `PyVal`. -/
def PyVal.beqList : List PyVal → List PyVal → Bool
  | [], [] => true
  | x :: xs, y :: ys => PyVal.beq x y && PyVal.beqList xs ys
  | _, _ => false

end

mutual

theorem PyVal.beq_iff : ∀ a b : PyVal, PyVal.beq a b = true ↔ a = b
  | .str a, .str b => by simp [PyVal.beq]
  | .int a, .int b => by simp [PyVal.beq]
  | .bool a, .bool b => by simp [PyVal.beq]
  | .list xs, .list ys => by
      simp [PyVal.beq, PyVal.beqList_iff xs ys]
  | .none, .none => by simp [PyVal.beq]
  | .presentWithoutValue, .presentWithoutValue => by simp [PyVal.beq]
  | .str _, .int _ => by simp [PyVal.beq]
  | .str _, .bool _ => by simp [PyVal.beq]
  | .str _, .list _ => by simp [PyVal.beq]
  | .str _, .none => by simp [PyVal.beq]
  | .str _, .presentWithoutValue => by simp [PyVal.beq]
  | .int _, .str _ => by simp [PyVal.beq]
  | .int _, .bool _ => by simp [PyVal.beq]
  | .int _, .list _ => by simp [PyVal.beq]
  | .int _, .none => by simp [PyVal.beq]
  | .int _, .presentWithoutValue => by simp [PyVal.beq]
  | .bool _, .str _ => by simp [PyVal.beq]
  | .bool _, .int _ => by simp [PyVal.beq]
  | .bool _, .list _ => by simp [PyVal.beq]
  | .bool _, .none => by simp [PyVal.beq]
  | .bool _, .presentWithoutValue => by simp [PyVal.beq]
  | .list _, .str _ => by simp [PyVal.beq]
  | .list _, .int _ => by simp [PyVal.beq]
  | .list _, .bool _ => by simp [PyVal.beq]
  | .list _, .none => by simp [PyVal.beq]
  | .list _, .presentWithoutValue => by simp [PyVal.beq]
  | .none, .str _ => by simp [PyVal.beq]
  | .none, .int _ => by simp [PyVal.beq]
  | .none, .bool _ => by simp [PyVal.beq]
  | .none, .list _ => by simp [PyVal.beq]
  | .none, .presentWithoutValue => by simp [PyVal.beq]
  | .presentWithoutValue, .str _ => by simp [PyVal.beq]
  | .presentWithoutValue, .int _ => by simp [PyVal.beq]
  | .presentWithoutValue, .bool _ => by simp [PyVal.beq]
  | .presentWithoutValue, .list _ => by simp [PyVal.beq]
  | .presentWithoutValue, .none => by simp [PyVal.beq]

theorem PyVal.beqList_iff : ∀ xs ys : List PyVal,
    PyVal.beqList xs ys = true ↔ xs = ys
  | [], [] => by simp [PyVal.beqList]
  | x :: xs, y :: ys => by
      simp [PyVal.beqList, PyVal.beq_iff x y, PyVal.beqList_iff xs ys]
  | [], _ :: _ => by simp [PyVal.beqList]
  | _ :: _, [] => by simp [PyVal.beqList]

end

instance : DecidableEq PyVal :=
  fun a b => decidable_of_iff _ (PyVal.beq_iff a b)

/-- Exceptions the modelled code can raise.  `coercionError` stands for
whatever exception a user-supplied `type` callable raises on a bad raw
value (for example `ValueError` from `int("x")`). -/
inductive PyErr where
  | valueError
  | typeError
  | attributeError
  | assertionError
  | notImplementedError
  | coercionError
  | jsonDecodeError
  | ioError
  | invalidChoice (name : String) (value : PyVal)
  | requiredConfigNotFound (name : String)
deriving DecidableEq

/-- Action tags of the `_ConfigSpec` subclasses that the factory
`_ConfigSpec.create` can produce. -/
inductive Action where
  | store
  | storeConst
  | storeTrue
  | storeFalse
  | append
  | count
deriving DecidableEq

/-- Python `+` restricted to the value shapes the library can feed it
(ints, bools-as-ints, string and list concatenation); `Option.none`
models a `TypeError` from an unsupported operand pair. -/
def pyAdd : PyVal → PyVal → Option PyVal
  | .int a, .int b => some (.int (a + b))
  | .int a, .bool b => some (.int (a + (if b then 1 else 0)))
  | .bool a, .int b => some (.int ((if a then 1 else 0) + b))
  | .bool a, .bool b => some (.int ((if a then 1 else 0) + (if b then 1 else 0)))
  | .str a, .str b => some (.str (a ++ b))
  | .list a, .list b => some (.list (a ++ b))
  | _, _ => Option.none

/-- Accumulator recursion for decimal digit strings. -/
def decDigitsAux : Nat → List Char → Option Nat
  | acc, [] => some acc
  | acc, c :: cs =>
      if c.isDigit then decDigitsAux (acc * 10 + (c.toNat - 48)) cs
      else Option.none

/-- Parse a non-empty all-digit string as a natural number. -/
def decDigits : List Char → Option Nat
  | [] => Option.none
  | cs => decDigitsAux 0 cs

/-- Decimal integer syntax accepted by the Python builtin `int` on a
string: an optional sign followed by digits (surrounding whitespace and
underscore separators, which Python also accepts, are not modelled). -/
def strToInt (s : String) : Option Int :=
  match s.data with
  | '-' :: cs => (decDigits cs).map (fun n => -(n : Int))
  | '+' :: cs => (decDigits cs).map (fun n => (n : Int))
  | cs => (decDigits cs).map (fun n => (n : Int))

/-- The Python builtin `int` used as a coercion `type`:
parses decimal strings, passes ints through, converts bools. -/
def pyInt : PyVal → Option PyVal
  | .int n => some (.int n)
  | .bool b => some (.int (if b then 1 else 0))
  | .str s => (strToInt s).map PyVal.int
  | _ => Option.none

/-- Rendering used by the Python builtin `str` (the default `type`).
The rendering of list values is approximate; no claim exercises it. -/
def pyStrOf : PyVal → String
  | .str s => s
  | .int n => toString n
  | .bool b => if b then "True" else "False"
  | .none => "None"
  | .presentWithoutValue => "==PRESENT_WITHOUT_VALUE=="
  | .list _ => "==LIST=="

/-- The Python builtin `str` as a coercion `type`; it never raises. -/
def pyStr (v : PyVal) : Option PyVal := some (.str (pyStrOf v))

/-- The module-level helper `present_without_value`, used as the fixed
`type` of the `store_const` family. -/
def present_without_value (_ : PyVal) : Option PyVal := some .presentWithoutValue

/-- Ordered namespace mapping item names to final (coerced) values,
modelling `multiconfig.Namespace` in its role as value store. -/
abbrev NS : Type := List (String × PyVal)

/-- Ordered namespace mapping item names to lists of raw values, the
shape produced by `Source.parse_config`. -/
abbrev RawNS : Type := List (String × List PyVal)

/-- Python `setattr` on a namespace: replace the entry in place when the
name already exists (namespaces built by this code never hold duplicate
names), otherwise append, matching attribute-dict insertion order. -/
def setattrG {α : Type} : List (String × α) → String → α → List (String × α)
  | [], k, v => [(k, v)]
  | p :: ps, k, v => if p.1 = k then (k, v) :: ps else p :: setattrG ps k v

/-- Lookup of an attribute; `Option.none` when the attribute is missing. -/
def lookupG {α : Type} : List (String × α) → String → Option α
  | [], _ => Option.none
  | p :: ps, k => if p.1 = k then some p.2 else lookupG ps k

/-- The free function `_getattr_or_none`: the attribute's value, or the
`NONE` sentinel (here `Option.none`) when absent. -/
def getattr_or_none (ns : NS) (k : String) : Option PyVal := lookupG ns k

/-- Python `hasattr` on a namespace. -/
def hasattrG {α : Type} (ns : List (String × α)) (k : String) : Bool :=
  (lookupG ns k).isSome

/-- Result of `re.match(r"[^0-9A-Za-z_]", name)` being truthy: `re.match`
is anchored at the start, so it only tests whether the FIRST character is
outside `[0-9A-Za-z_]` (and never matches on the empty string). -/
def re_match_nonword (name : String) : Bool :=
  match name.data with
  | [] => false
  | c :: _ => !(c.isAlphanum || c = '_')

/-- Result of `re.match(r"^[^a-zA-Z_]", name)` being truthy: tests whether
the first character is outside `[a-zA-Z_]`. -/
def re_match_nonalpha (name : String) : Bool :=
  match name.data with
  | [] => false
  | c :: _ => !(c.isAlpha || c = '_')

/-- The condition under which `_ConfigSpec._set_name` raises `ValueError`. -/
def set_name_raises (name : String) : Bool :=
  re_match_nonword name || re_match_nonalpha name

/-- The identifier pattern named by the spec, `[A-Za-z_][A-Za-z0-9_]*`,
matched against the whole name.  This definition follows the SPEC's words
and is compared against the code's `set_name_raises`. -/
def spec_ident_pattern (name : String) : Bool :=
  match name.data with
  | [] => false
  | c :: rest =>
      (c.isAlpha || c = '_') && rest.all (fun d => d.isAlphanum || d = '_')

/-- One config item specification, the union of the fields of the
`_ConfigSpec` subclasses.  `default`, `choices` and `const` use
`Option.none` for the `NONE` sentinel.  The unimplemented `nargs` field is
always `NONE` on a constructed spec and is omitted. -/
structure ConfigSpec where
  name : String
  type : PyVal → Option PyVal
  required : Bool
  action : Action
  default : Option PyVal
  choices : Option (List PyVal)
  const : Option PyVal
  help : Option String

/-- List-building step shared by `_AppendConfigSpec.accumulate_value`:
`[new]` when `current` is `NONE`, else `current + [new]` (a `TypeError`
when the accumulated value is not a list). -/
def appendCombine (current : Option PyVal) (new : PyVal) : Except PyErr PyVal :=
  match current with
  | Option.none => .ok (.list [new])
  | some (.list l) => .ok (.list (l ++ [new]))
  | some _ => .error .typeError

/-- Method `accumulate_value` of the `_ConfigSpec` subclass selected by
`spec.action`, folding one raw value into the current accumulated value.
The `assert raw_new is PRESENT_WITHOUT_VALUE` statements of the const and
count variants are modelled as `AssertionError`. -/
def ConfigSpec.accumulate_value (spec : ConfigSpec) (current : Option PyVal)
    (raw_new : PyVal) : Except PyErr PyVal :=
  match spec.action with
  | .store =>
      match spec.type raw_new with
      | Option.none => .error .coercionError
      | some new =>
          match spec.choices with
          | some cs =>
              if cs.contains new then .ok new
              else .error (.invalidChoice spec.name new)
          | Option.none => .ok new
  | .append =>
      match spec.type raw_new with
      | Option.none => .error .coercionError
      | some new =>
          match spec.choices with
          | some cs =>
              if cs.contains new then appendCombine current new
              else .error (.invalidChoice spec.name new)
          | Option.none => appendCombine current new
  | .storeConst | .storeTrue | .storeFalse =>
      if raw_new = .presentWithoutValue then .ok .presentWithoutValue
      else .error .assertionError
  | .count =>
      if raw_new = .presentWithoutValue then
        match current with
        | Option.none => .ok (.int 1)
        | some cur =>
            match pyAdd cur (.int 1) with
            | some r => .ok r
            | Option.none => .error .typeError
      else .error .assertionError

/-- Method `accumulate_values`: `functools.reduce(self.accumulate_value,
raw_news, current)`, a left fold threading exceptions. -/
def ConfigSpec.accumulate_values (spec : ConfigSpec) :
    Option PyVal → List PyVal → Except PyErr (Option PyVal)
  | current, [] => .ok current
  | current, r :: rs =>
      match spec.accumulate_value current r with
      | .error e => .error e
      | .ok v => spec.accumulate_values (some v) rs

/-- Method `apply_default` of the `_ConfigSpec` subclass selected by
`spec.action`, run once per item after all sources are merged. -/
def ConfigSpec.apply_default (spec : ConfigSpec) (value : Option PyVal) :
    Except PyErr (Option PyVal) :=
  match spec.action with
  | .store =>
      if value = Option.none ∧ spec.default ≠ Option.none then .ok spec.default
      else .ok value
  | .storeConst | .storeTrue | .storeFalse =>
      match value with
      | some .presentWithoutValue => .ok spec.const
      | Option.none => .ok spec.default
      | some _ => .error .assertionError
  | .append =>
      match spec.default with
      | Option.none => .ok value
      | some d =>
          match value with
          | Option.none => .ok (some d)
          | some v =>
              match pyAdd d v with
              | some r => .ok (some r)
              | Option.none => .error .typeError
  | .count =>
      match spec.default with
      | Option.none => .ok value
      | some d =>
          match value with
          | Option.none => .ok (some d)
          | some v =>
              match pyAdd d v with
              | some r => .ok (some r)
              | Option.none => .error .typeError

/-- Keyword arguments accepted by `ConfigParser.add_config` and forwarded
to `_ConfigSpec.create`.  A field equal to `Option.none` means the caller
did not pass that keyword.  For `default`, `choices`, `const` and `nargs`
the constructors' own default is the `NONE` sentinel, so not passing the
keyword and passing `NONE` coincide; `required` and `type` are kept
optional because passing them at all is a `TypeError` for some actions
(duplicate keyword argument in `super().__init__`). -/
structure Kwargs where
  action : String := "store"
  type : Option (PyVal → Option PyVal) := Option.none
  required : Option Bool := Option.none
  default : Option PyVal := Option.none
  choices : Option (List PyVal) := Option.none
  const : Option PyVal := Option.none
  nargs : Option PyVal := Option.none
  help : Option String := Option.none

/-- Constructor of `_StoreConfigSpec` (action `store`): the base
`_ConfigSpec.__init__` runs first, so `_set_name`'s `ValueError` comes
before the `NotImplementedError` of `_set_nargs` and `_set_const`
(`_set_type`'s `callable` check cannot fail in the model, every Lean
function is callable). -/
def storeInit (name : String) (k : Kwargs) : Except PyErr ConfigSpec :=
  if set_name_raises name then .error .valueError
  else if k.nargs.isSome then .error .notImplementedError
  else if k.const.isSome then .error .notImplementedError
  else .ok { name := name, type := k.type.getD pyStr,
             required := k.required.getD false, action := .store,
             default := k.default, choices := k.choices,
             const := Option.none, help := k.help }

/-- Constructor of `_AppendConfigSpec` (action `append`); same shape as
`storeInit`. -/
def appendInit (name : String) (k : Kwargs) : Except PyErr ConfigSpec :=
  if set_name_raises name then .error .valueError
  else if k.nargs.isSome then .error .notImplementedError
  else if k.const.isSome then .error .notImplementedError
  else .ok { name := name, type := k.type.getD pyStr,
             required := k.required.getD false, action := .append,
             default := k.default, choices := k.choices,
             const := Option.none, help := k.help }

/-- Constructor of `_StoreConstConfigSpec` (action `store_const`).  The
`const` argument is mandatory (a missing one is a `TypeError` at the
call).  `super().__init__(type=present_without_value, required=False,
**kwargs)` makes a caller-supplied `type` or `required` a duplicate
keyword argument, and a caller-supplied `choices` or `nargs` an unexpected
keyword argument: all four are `TypeError`s raised before the base body
(and hence before name validation) runs. -/
def storeConstInit (name : String) (k : Kwargs) : Except PyErr ConfigSpec :=
  match k.const with
  | Option.none => .error .typeError
  | some c =>
      if k.type.isSome || k.required.isSome || k.choices.isSome || k.nargs.isSome then
        .error .typeError
      else if set_name_raises name then .error .valueError
      else .ok { name := name, type := present_without_value,
                 required := false, action := .storeConst,
                 default := k.default, choices := Option.none,
                 const := some c, help := k.help }

/-- Constructor of `_StoreTrueConfigSpec` (action `store_true`): fixes
`const=True` and gives `default` the real value `False` when absent; a
caller-supplied `const` is a duplicate keyword argument (`TypeError`). -/
def storeTrueInit (name : String) (k : Kwargs) : Except PyErr ConfigSpec :=
  if k.const.isSome || k.type.isSome || k.required.isSome || k.choices.isSome
      || k.nargs.isSome then
    .error .typeError
  else if set_name_raises name then .error .valueError
  else .ok { name := name, type := present_without_value,
             required := false, action := .storeTrue,
             default := some (k.default.getD (.bool false)), choices := Option.none,
             const := some (.bool true), help := k.help }

/-- Constructor of `_StoreFalseConfigSpec` (action `store_false`): fixes
`const=False`, `default=True` when absent. -/
def storeFalseInit (name : String) (k : Kwargs) : Except PyErr ConfigSpec :=
  if k.const.isSome || k.type.isSome || k.required.isSome || k.choices.isSome
      || k.nargs.isSome then
    .error .typeError
  else if set_name_raises name then .error .valueError
  else .ok { name := name, type := present_without_value,
             required := false, action := .storeFalse,
             default := some (k.default.getD (.bool true)), choices := Option.none,
             const := some (.bool false), help := k.help }

/-- Constructor of `_CountConfigSpec` (action `count`): fixes `type=int`
(a caller-supplied `type` is a duplicate keyword argument) and forwards
`required`; `choices`, `const` and `nargs` are unexpected keyword
arguments for the base constructor. -/
def countInit (name : String) (k : Kwargs) : Except PyErr ConfigSpec :=
  if k.type.isSome || k.choices.isSome || k.const.isSome || k.nargs.isSome then
    .error .typeError
  else if set_name_raises name then .error .valueError
  else .ok { name := name, type := pyInt,
             required := k.required.getD false, action := .count,
             default := k.default, choices := Option.none,
             const := Option.none, help := k.help }

/-- Factory `_ConfigSpec.create`: `append_const` and `extend` are
explicitly unimplemented, unknown actions are a `ValueError`, otherwise
the registered subclass constructor runs. -/
def configSpecCreate (name : String) (k : Kwargs) : Except PyErr ConfigSpec :=
  if k.action = "append_const" ∨ k.action = "extend" then
    .error .notImplementedError
  else if k.action = "store" then storeInit name k
  else if k.action = "store_const" then storeConstInit name k
  else if k.action = "store_true" then storeTrueInit name k
  else if k.action = "store_false" then storeFalseInit name k
  else if k.action = "append" then appendInit name k
  else if k.action = "count" then countInit name k
  else .error .valueError

/-- The actions for which `DictSource.parse_config` substitutes the
`PRESENT_WITHOUT_VALUE` marker for the mapping's value. -/
def presenceAction (a : Action) : Bool :=
  match a with
  | .storeConst | .storeTrue | .storeFalse | .count => true
  | .store | .append => false

/-- Recursion of `DictSource.parse_config`: for each spec (in the
source's snapshot order) whose name is a key of the dict, set a
one-element raw list on the namespace, replacing the value with the
presence marker for const-family and count actions. -/
def dictSourceParseAux : List ConfigSpec → List (String × PyVal) → RawNS → RawNS
  | [], _, ns => ns
  | spec :: rest, d, ns =>
      match lookupG d spec.name with
      | Option.none => dictSourceParseAux rest d ns
      | some v =>
          let v' := if presenceAction spec.action then PyVal.presentWithoutValue else v
          dictSourceParseAux rest d (setattrG ns spec.name [v'])

/-- Method `DictSource.parse_config`. -/
def dictSourceParse (specs : List ConfigSpec) (d : List (String × PyVal)) :
    RawNS :=
  dictSourceParseAux specs d []

/-- Recursion of `ArgparseSource.notify_parsed_args`: copy, for each spec
in the snapshot, the non-empty value lists present on the argparse result
namespace. -/
def argparseNotifyAux : List ConfigSpec → RawNS → RawNS → RawNS
  | [], _, ns => ns
  | spec :: rest, argNs, ns =>
      match lookupG argNs spec.name with
      | Option.none => argparseNotifyAux rest argNs ns
      | some vs =>
          if vs = [] then argparseNotifyAux rest argNs ns
          else argparseNotifyAux rest argNs (setattrG ns spec.name vs)

/-- Method `ArgparseSource.notify_parsed_args` (the stored
`_parsed_values` namespace it computes from an argparse result). -/
def argparseNotify (specs : List ConfigSpec) (argNs : RawNS) : RawNS :=
  argparseNotifyAux specs argNs []

/-- A registered source: a `DictSource` (holding its spec snapshot and
dict) or an `ArgparseSource` (holding its spec snapshot and the
`_parsed_values` state set by `notify_parsed_args`, initially `None`). -/
inductive Src where
  | dict (specs : List ConfigSpec) (d : List (String × PyVal))
  | argparse (specs : List ConfigSpec) (parsedValues : Option RawNS)

/-- Method `parse_config` of a source, as consumed by
`_add_preparsed_values`.  An un-notified `ArgparseSource` returns Python
`None`; since `hasattr(None, name)` is false for ordinary item names
(names shadowing object dunder attributes are outside the model), that
is equivalent to an empty raw namespace. -/
def Src.parseRaw : Src → RawNS
  | .dict specs d => dictSourceParse specs d
  | .argparse _ (some ns) => ns
  | .argparse _ Option.none => []

/-- The value of the `config_default` argument of
`ConfigParser.__init__`: the `NONE` sentinel, the `SUPPRESS` tag, or an
ordinary value (the Python-level default is `.value .none`, that is,
Python `None`). -/
inductive GlobalDefault where
  | noneSentinel
  | suppress
  | value (v : PyVal)

/-- State of a `ConfigParser` object: registered specs, registered
sources, the running `_parsed_values` namespace, and the global default
policy. -/
structure ParserState where
  config_specs : List ConfigSpec
  sources : List Src
  parsed_values : NS
  global_default : GlobalDefault

/-- Constructor `ConfigParser.__init__`. -/
def initParser (gd : GlobalDefault) : ParserState :=
  { config_specs := [], sources := [], parsed_values := [], global_default := gd }

/-- Method `ConfigParser.add_config`: create a spec (which can fail) and
append it to the spec list. -/
def addConfig (st : ParserState) (name : String) (k : Kwargs) :
    Except PyErr ParserState :=
  match configSpecCreate name k with
  | .error e => .error e
  | .ok spec => .ok { st with config_specs := st.config_specs ++ [spec] }

/-- Method `ConfigParser.add_source`: the new source is constructed with
`copy.copy(self._config_specs)` — a snapshot of the specs registered so
far — and appended to the source list. -/
def addSource (st : ParserState) (mk : List ConfigSpec → Src) : ParserState :=
  { st with sources := st.sources ++ [mk st.config_specs] }

/-- Register a `DictSource` backed by dict `d`. -/
def addDictSource (st : ParserState) (d : List (String × PyVal)) : ParserState :=
  addSource st (fun specs => .dict specs d)

/-- Register an `ArgparseSource` (not yet notified of any parse result). -/
def addArgparseSource (st : ParserState) : ParserState :=
  addSource st (fun specs => .argparse specs Option.none)

/-- Index-aware map used by `notifySource`, written structurally. -/
def mapFromIndex {α : Type} (f : Nat → α → α) : Nat → List α → List α
  | _, [] => []
  | j, x :: xs => f j x :: mapFromIndex f (j + 1) xs

/-- Deliver an argparse result namespace to the i-th registered source
via `ArgparseSource.notify_parsed_args` (a no-op on other source kinds). -/
def notifySource (st : ParserState) (i : Nat) (argNs : RawNS) : ParserState :=
  { st with
    sources := mapFromIndex (fun j s =>
      match s with
      | .argparse specs _ =>
          if j = i then .argparse specs (some (argparseNotify specs argNs)) else s
      | _ => s) 0 st.sources }

/-- Recursion of `ConfigParser._add_preparsed_values`: fold one source's
raw namespace into `_parsed_values` spec by spec.  The namespace is
mutated in place by the Python code, so on an exception the entries
already written stay: the error carries the namespace as mutated so far.
The `assert new is not NONE` is modelled as an `AssertionError`. -/
def addPreparsedValues : List ConfigSpec → NS → RawNS → Except (PyErr × NS) NS
  | [], pv, _ => .ok pv
  | spec :: rest, pv, pre =>
      match lookupG pre spec.name with
      | Option.none => addPreparsedValues rest pv pre
      | some raw_news =>
          match spec.accumulate_values (getattr_or_none pv spec.name) raw_news with
          | .error e => .error (e, pv)
          | .ok Option.none => .error (.assertionError, pv)
          | .ok (some new) => addPreparsedValues rest (setattrG pv spec.name new) pre

/-- Source loop of `ConfigParser.partially_parse_config`: pull each source
in registration order and merge its raw values; on an exception the
`_parsed_values` mutations made so far stay. -/
def mergeSources (specs : List ConfigSpec) : NS → List Src → Except (PyErr × NS) NS
  | pv, [] => .ok pv
  | pv, s :: rest =>
      match addPreparsedValues specs pv s.parseRaw with
      | .error e => .error e
      | .ok pv' => mergeSources specs pv' rest

/-- Recursion of `ConfigParser._get_configs_with_defaults` over the spec
list: apply the item's own `apply_default`, then the global default
policy branch chain (`is not NONE` / `is NONE` / `is not SUPPRESS`). -/
def applyDefaultsLoop (gd : GlobalDefault) : List ConfigSpec → NS → Except PyErr NS
  | [], values => .ok values
  | spec :: rest, values =>
      match spec.apply_default (getattr_or_none values spec.name) with
      | .error e => .error e
      | .ok (some v) => applyDefaultsLoop gd rest (setattrG values spec.name v)
      | .ok Option.none =>
          match gd with
          | .noneSentinel => applyDefaultsLoop gd rest (setattrG values spec.name .none)
          | .value v => applyDefaultsLoop gd rest (setattrG values spec.name v)
          | .suppress => applyDefaultsLoop gd rest values

/-- Method `ConfigParser._get_configs_with_defaults`, acting on a copy of
`_parsed_values`. -/
def getConfigsWithDefaults (st : ParserState) : Except PyErr NS :=
  applyDefaultsLoop st.global_default st.config_specs st.parsed_values

/-- Method `ConfigParser._check_required_configs`: the name of the first
spec with `required` set whose `_parsed_values` entry is absent, if any
(that is the item the raised exception names). -/
def checkRequired : List ConfigSpec → NS → Option String
  | [], _ => Option.none
  | spec :: rest, pv =>
      if getattr_or_none pv spec.name = Option.none ∧ spec.required then
        some spec.name
      else checkRequired rest pv

/-- Method `ConfigParser.partially_parse_config`: merge every source into
`_parsed_values` (which persists on the parser object), then compute the
result namespace with defaults.  On failure the returned state carries
the `_parsed_values` mutations made before the exception. -/
def partiallyParseConfig (st : ParserState) :
    Except (PyErr × ParserState) (ParserState × NS) :=
  match mergeSources st.config_specs st.parsed_values st.sources with
  | .error (e, pv') => .error (e, { st with parsed_values := pv' })
  | .ok pv' =>
      match getConfigsWithDefaults { st with parsed_values := pv' } with
      | .error e => .error (e, { st with parsed_values := pv' })
      | .ok res => .ok ({ st with parsed_values := pv' }, res)

/-- Method `ConfigParser.parse_config`: `partially_parse_config`, then
`_check_required_configs` against the merged (pre-default)
`_parsed_values`. -/
def parseConfig (st : ParserState) :
    Except (PyErr × ParserState) (ParserState × NS) :=
  match partiallyParseConfig st with
  | .error e => .error e
  | .ok (st', res) =>
      match checkRequired st'.config_specs st'.parsed_values with
      | some n => .error (.requiredConfigNotFound n, st')
      | Option.none => .ok (st', res)

/-- Parser state after a call to `parse_config`, whether it raised or
returned (Python keeps the mutated object either way). -/
def stateAfterParse (st : ParserState) : ParserState :=
  match parseConfig st with
  | .ok (st', _) => st'
  | .error (_, st') => st'

/-- The result namespace of a successful `parse_config` call, `none` when
the call raised. -/
def parseResult (st : ParserState) : Option NS :=
  match parseConfig st with
  | .ok (_, res) => some res
  | .error _ => Option.none

/-- The exception of a failed `parse_config` call, `none` on success. -/
def parseError (st : ParserState) : Option PyErr :=
  match parseConfig st with
  | .ok _ => Option.none
  | .error (e, _) => some e

/-- The result namespace of a successful `partially_parse_config` call. -/
def partialParseResult (st : ParserState) : Option NS :=
  match partiallyParseConfig st with
  | .ok (_, res) => some res
  | .error _ => Option.none

/-- The `fileobj` argument of `JsonSource`: an open stream, carrying the
result of `json.load` on it (`Option.none` when the stream's content does
not decode).  A Python file object is always truthy. -/
structure FileObj where
  jsonDoc : Option (List (String × PyVal))

/-- Truthiness of the `path` argument: a non-empty string.  (`None` and
the empty string are both falsy in Python.) -/
def truthyPath (path : Option String) : Bool :=
  match path with
  | some p => p ≠ ""
  | Option.none => false

/-- Python `json.load(fileobj)`: decode the stream, or raise; on
`json.load(None)` the attribute access `None.read` raises
`AttributeError`. -/
def jsonLoadFileobj : Option FileObj → Except PyErr (List (String × PyVal))
  | some f =>
      match f.jsonDoc with
      | some doc => .ok doc
      | Option.none => .error .jsonDecodeError
  | Option.none => .error .attributeError

/-- Static method `JsonSource._get_json`: `if path:` open and decode the
file (the environment `fs` gives the decoded document of a readable path,
`Option.none` covering both an unreadable path and undecodable content);
`else` decode from `fileobj`. -/
def jsonGet (fs : String → Option (List (String × PyVal)))
    (path : Option String) (fileobj : Option FileObj) :
    Except PyErr (List (String × PyVal)) :=
  if truthyPath path then
    match path, fs (path.getD "") with
    | some _, some doc => .ok doc
    | _, _ => .error .ioError
  else jsonLoadFileobj fileobj

/-- Constructor `JsonSource.__init__`: `if path and fileobj:` raise
`ValueError`; otherwise read the document once via `_get_json` and wrap
it in a `DictSource` over the spec snapshot. -/
def jsonSourceInit (fs : String → Option (List (String × PyVal)))
    (specs : List ConfigSpec) (path : Option String)
    (fileobj : Option FileObj) : Except PyErr Src :=
  if truthyPath path && fileobj.isSome then .error .valueError
  else
    match jsonGet fs path fileobj with
    | .error e => .error e
    | .ok doc => .ok (.dict specs doc)

/-- Extract the parser from a successful registration call.  The fallback
branch is never reached in the concrete scenarios below: every
registration there succeeds, which the theorems check by computing the
scenario end to end. -/
def getOkParser (e : Except PyErr ParserState) : ParserState :=
  match e with
  | .ok st => st
  | .error _ => initParser .suppress

/-- Scenario for C2: a parser (default global policy, i.e. Python
`None`) with a `count` item `a`, then a `store` item `b` with `type=int`
and `choices=[1, 2]`, and one argparse source. -/
def c2Parser : ParserState :=
  addArgparseSource
    (getOkParser (addConfig
      (getOkParser (addConfig (initParser (.value .none)) "a" { action := "count" }))
      "b" { type := some pyInt, choices := some [.int 1, .int 2] }))

/-- The C2 parser after the argparse source is notified of a command line
holding one occurrence of flag `a` and the value `"3"` for `b` (a choice
violation once coerced). -/
def c2Failed : ParserState :=
  notifySource c2Parser 0 [("a", [.presentWithoutValue]), ("b", [.str "3"])]

/-- Scenario for C3: a parser with one `count` item `a` and a dict source
whose dict contains the key `a`. -/
def c3Parser : ParserState :=
  addDictSource
    (getOkParser (addConfig (initParser (.value .none)) "a" { action := "count" }))
    [("a", .int 99)]

/-- Iterated resolution passes on one parser object: the state after `k`
calls of `parse_config` (each call keeps the mutated object whether it
raised or returned). -/
def parseNTimes (st : ParserState) : Nat → ParserState
  | 0 => st
  | k + 1 => stateAfterParse (parseNTimes st k)

/-- Scenario for C4: a parser whose only item is a required `append` item
with an item-level default, and no sources. -/
def c4Parser : ParserState :=
  getOkParser (addConfig (initParser (.value .none)) "c1"
    { action := "append", required := some true, default := some (.list [.str "v0"]) })

/-- The spec record that `add_config` builds in the C4 scenario. -/
def c4Spec : ConfigSpec :=
  { name := "c1", type := pyStr, required := true, action := .append,
    default := some (.list [.str "v0"]), choices := Option.none,
    const := Option.none, help := Option.none }

/-- Scenario for C5: an `append` item `c` with `type=int` and default
`[0]`, an earlier dict source contributing `1` and a later one
contributing `2`. -/
def c5Parser : ParserState :=
  addDictSource
    (addDictSource
      (getOkParser (addConfig (initParser (.value .none)) "c"
        { action := "append", type := some pyInt, default := some (.list [.int 0]) }))
      [("c", .int 1)])
    [("c", .int 2)]

/-- Scenario for C7: item `c1`, then a dict source whose dict has keys
`c1` and `c3`, then item `c3`, then a second dict source supplying `c3`. -/
def c7Parser : ParserState :=
  addDictSource
    (getOkParser (addConfig
      (addDictSource
        (getOkParser (addConfig (initParser (.value .none)) "c1" {}))
        [("c1", .str "v1"), ("c3", .str "x")])
      "c3" {}))
    [("c3", .str "y")]

/-- The C7 scenario without the second source: the only source was
registered before item `c3` existed. -/
def c7ParserNoSecond : ParserState :=
  getOkParser (addConfig
    (addDictSource
      (getOkParser (addConfig (initParser (.value .none)) "c1" {}))
      [("c1", .str "v1"), ("c3", .str "x")])
    "c3" {})

/-- A concrete `store` spec with `type=int` and `choices=[1, 2]`, used to
instantiate the C8 theorem. -/
def c8Spec : ConfigSpec :=
  { name := "c1", type := pyInt, required := false, action := .store,
    default := Option.none, choices := some [.int 1, .int 2],
    const := Option.none, help := Option.none }

/-- A concrete `store` spec for item `a` with no default, used to
instantiate the C6 theorem. -/
def c6Spec : ConfigSpec :=
  { name := "a", type := pyStr, required := false, action := .store,
    default := Option.none, choices := Option.none,
    const := Option.none, help := Option.none }

/-- The spec record that `add_config` builds for
`add_config("x", action="store_true")`, used to instantiate the C10
theorem. -/
def c10Spec : ConfigSpec :=
  { name := "x", type := present_without_value, required := false,
    action := .storeTrue, default := some (.bool false),
    choices := Option.none, const := some (.bool true), help := Option.none }

theorem lookupG_setattr_self {α : Type} (ns : List (String × α)) (k : String)
    (v : α) : lookupG (setattrG ns k v) k = some v := by
  induction ns with
  | nil => simp [setattrG, lookupG]
  | cons p ps ih =>
      by_cases h : p.1 = k <;> simp [setattrG, lookupG, h, ih]

theorem lookupG_setattr_ne {α : Type} (ns : List (String × α)) (k name : String)
    (v : α) (h : k ≠ name) :
    lookupG (setattrG ns k v) name = lookupG ns name := by
  induction ns with
  | nil => simp [setattrG, lookupG, h]
  | cons p ps ih =>
      by_cases hp : p.1 = k
      · simp [setattrG, lookupG, hp, h, Ne.symm h]
      · by_cases hn : p.1 = name <;>
          simp [setattrG, lookupG, hp, hn, Ne.symm h, ih]

theorem hasattrG_setattr {α : Type} (ns : List (String × α)) (k name : String)
    (v : α) :
    hasattrG (setattrG ns k v) name = (decide (name = k) || hasattrG ns name) := by
  by_cases h : name = k
  · subst h
    simp [hasattrG, lookupG_setattr_self]
  · simp [hasattrG, lookupG_setattr_ne ns k name v (Ne.symm h), h]

/-- Chunking lemma: `accumulate_values` over a concatenation is the
sequential composition of the two folds. -/
theorem accumulate_values_append (spec : ConfigSpec) (c : Option PyVal)
    (xs ys : List PyVal) :
    spec.accumulate_values c (xs ++ ys)
      = match spec.accumulate_values c xs with
        | .error e => .error e
        | .ok c' => spec.accumulate_values c' ys := by
  induction xs generalizing c with
  | nil => simp [ConfigSpec.accumulate_values]
  | cons x xs ih =>
      simp only [List.cons_append, ConfigSpec.accumulate_values]
      cases spec.accumulate_value c x <;> simp [ih]

/-- One resolution step of the C3 scenario starting from an accumulated
count of `m`: the pass succeeds and leaves `m + 1` in the parser's
running value store. -/
theorem stateAfterParse_c3_step (m : Int) :
    stateAfterParse { c3Parser with parsed_values := [("a", .int m)] }
      = { c3Parser with parsed_values := [("a", .int (m + 1))] } := rfl

/-- Membership of an attribute in the namespace built by
`DictSource.parse_config`'s loop: an attribute is present iff it was
present on the accumulator or some spec of the source's snapshot bears
that name and the dict has the key. -/
theorem hasattr_dictSourceParseAux (specs : List ConfigSpec)
    (d : List (String × PyVal)) (ns : RawNS) (name : String) :
    hasattrG (dictSourceParseAux specs d ns) name = true ↔
      (hasattrG ns name = true ∨
        ∃ spec ∈ specs, spec.name = name ∧ (lookupG d name).isSome = true) := by
  induction specs generalizing ns with
  | nil => simp [dictSourceParseAux]
  | cons spec rest ih =>
      simp only [dictSourceParseAux]
      cases h : lookupG d spec.name with
      | none =>
          rw [ih]
          constructor
          · rintro (hns | hex)
            · exact Or.inl hns
            · exact Or.inr (by
                obtain ⟨s, hs, hn, hd⟩ := hex
                exact ⟨s, List.mem_cons_of_mem spec hs, hn, hd⟩)
          · rintro (hns | ⟨s, hs, hn, hd⟩)
            · exact Or.inl hns
            · rcases List.mem_cons.mp hs with hhead | htail
              · subst hhead
                rw [hn.symm] at hd
                simp [h] at hd
              · exact Or.inr ⟨s, htail, hn, hd⟩
      | some v =>
          rw [ih, hasattrG_setattr]
          constructor
          · rintro (hor | hex)
            · rcases Bool.or_eq_true_iff.mp hor with heq | hns
              · refine Or.inr ⟨spec, List.mem_cons_self spec rest, ?_, ?_⟩
                · exact (of_decide_eq_true heq).symm
                · rw [of_decide_eq_true heq]
                  simp [h]
              · exact Or.inl hns
            · obtain ⟨s, hs, hn, hd⟩ := hex
              exact Or.inr ⟨s, List.mem_cons_of_mem spec hs, hn, hd⟩
          · rintro (hns | ⟨s, hs, hn, hd⟩)
            · exact Or.inl (by simp [hns])
            · rcases List.mem_cons.mp hs with hhead | htail
              · subst hhead
                exact Or.inl (by simp [hn])
              · exact Or.inr ⟨s, htail, hn, hd⟩

/-- `current + [new]` can raise only `TypeError`, never
`RequiredConfigNotFoundError`. -/
theorem appendCombine_ne_required (c : Option PyVal) (new : PyVal) (n : String) :
    appendCombine c new ≠ .error (.requiredConfigNotFound n) := by
  unfold appendCombine
  split <;> simp

/-- `current + [new]` never raises `InvalidChoiceError`. -/
theorem appendCombine_ne_invalidChoice (c : Option PyVal) (new : PyVal)
    (n : String) (w : PyVal) :
    appendCombine c new ≠ .error (.invalidChoice n w) := by
  unfold appendCombine
  split <;> simp

/-- No `accumulate_value` variant raises `RequiredConfigNotFoundError`. -/
theorem accumulate_value_ne_required (spec : ConfigSpec) (c : Option PyVal)
    (r : PyVal) (n : String) :
    spec.accumulate_value c r ≠ .error (.requiredConfigNotFound n) := by
  intro h
  unfold ConfigSpec.accumulate_value at h
  repeat' split at h
  all_goals first
    | simp at h
    | exact appendCombine_ne_required _ _ _ h

/-- `accumulate_values` never raises `RequiredConfigNotFoundError`. -/
theorem accumulate_values_ne_required (spec : ConfigSpec) (rs : List PyVal)
    (c : Option PyVal) (n : String) :
    spec.accumulate_values c rs ≠ .error (.requiredConfigNotFound n) := by
  induction rs generalizing c with
  | nil => simp [ConfigSpec.accumulate_values]
  | cons r rs ih =>
      intro h
      unfold ConfigSpec.accumulate_values at h
      cases hv : spec.accumulate_value c r with
      | error e =>
          rw [hv] at h
          injection h with h1
          subst h1
          exact accumulate_value_ne_required spec c r n hv
      | ok v =>
          rw [hv] at h
          exact ih (some v) h

/-- `_add_preparsed_values` never raises
`RequiredConfigNotFoundError`. -/
theorem addPreparsedValues_ne_required (specs : List ConfigSpec) (pv : NS)
    (pre : RawNS) (n : String) (pvE : NS) :
    addPreparsedValues specs pv pre ≠ .error (.requiredConfigNotFound n, pvE) := by
  induction specs generalizing pv with
  | nil => simp [addPreparsedValues]
  | cons spec rest ih =>
      intro h
      unfold addPreparsedValues at h
      split at h
      · exact ih pv h
      · split at h
        · rename_i hv
          simp only [Except.error.injEq, Prod.mk.injEq] at h
          exact accumulate_values_ne_required spec _ _ n (h.1 ▸ hv)
        · simp at h
        · exact ih _ h

/-- The source loop of `partially_parse_config` never raises
`RequiredConfigNotFoundError`. -/
theorem mergeSources_ne_required (specs : List ConfigSpec) (srcs : List Src)
    (pv : NS) (n : String) (pvE : NS) :
    mergeSources specs pv srcs ≠ .error (.requiredConfigNotFound n, pvE) := by
  induction srcs generalizing pv with
  | nil => simp [mergeSources]
  | cons s rest ih =>
      intro h
      unfold mergeSources at h
      cases ha : addPreparsedValues specs pv s.parseRaw with
      | error ep =>
          rw [ha] at h
          injection h with h1
          exact addPreparsedValues_ne_required specs pv s.parseRaw n pvE (h1 ▸ ha)
      | ok pv' =>
          rw [ha] at h
          exact ih pv' h

/-- No `apply_default` variant raises `RequiredConfigNotFoundError`. -/
theorem apply_default_ne_required (spec : ConfigSpec) (v : Option PyVal)
    (n : String) :
    spec.apply_default v ≠ .error (.requiredConfigNotFound n) := by
  intro h
  unfold ConfigSpec.apply_default at h
  repeat' split at h
  all_goals simp at h

/-- Unfolding equation for the non-empty case of the
`_get_configs_with_defaults` loop. -/
theorem applyDefaultsLoop_cons (gd : GlobalDefault) (spec : ConfigSpec)
    (rest : List ConfigSpec) (values : NS) :
    applyDefaultsLoop gd (spec :: rest) values
      = match spec.apply_default (getattr_or_none values spec.name) with
        | .error e => .error e
        | .ok (some v) => applyDefaultsLoop gd rest (setattrG values spec.name v)
        | .ok Option.none =>
            match gd with
            | .noneSentinel => applyDefaultsLoop gd rest (setattrG values spec.name .none)
            | .value v => applyDefaultsLoop gd rest (setattrG values spec.name v)
            | .suppress => applyDefaultsLoop gd rest values := rfl

/-- `_get_configs_with_defaults`' loop never raises
`RequiredConfigNotFoundError`. -/
theorem applyDefaultsLoop_ne_required (gd : GlobalDefault)
    (specs : List ConfigSpec) (vals : NS) (n : String) :
    applyDefaultsLoop gd specs vals ≠ .error (.requiredConfigNotFound n) := by
  induction specs generalizing vals with
  | nil => simp [applyDefaultsLoop]
  | cons spec rest ih =>
      intro h
      rw [applyDefaultsLoop_cons] at h
      split at h
      · rename_i e ha
        injection h with h1
        exact apply_default_ne_required spec _ n (h1 ▸ ha)
      · exact ih _ h
      · split at h
        · exact ih _ h
        · exact ih _ h
        · exact ih _ h

/-- `partially_parse_config` never raises
`RequiredConfigNotFoundError`. -/
theorem partiallyParse_ne_required (st : ParserState) (n : String)
    (stE : ParserState) :
    partiallyParseConfig st ≠ .error (.requiredConfigNotFound n, stE) := by
  intro h
  unfold partiallyParseConfig at h
  split at h
  · rename_i e pv' hm
    simp only [Except.error.injEq, Prod.mk.injEq] at h
    exact mergeSources_ne_required st.config_specs st.sources
      st.parsed_values n pv' (h.1 ▸ hm)
  · split at h
    · rename_i hg
      simp only [Except.error.injEq, Prod.mk.injEq] at h
      exact applyDefaultsLoop_ne_required _ _ _ n (h.1 ▸ hg)
    · simp at h

/-- A `_check_required_configs` hit names a registered spec that is
required and absent from the merged values. -/
theorem checkRequired_some (specs : List ConfigSpec) (pv : NS) (n : String)
    (h : checkRequired specs pv = some n) :
    ∃ spec ∈ specs, spec.name = n ∧ spec.required = true ∧
      getattr_or_none pv spec.name = Option.none := by
  induction specs with
  | nil => simp [checkRequired] at h
  | cons spec rest ih =>
      unfold checkRequired at h
      split at h
      · rename_i hc
        injection h with h1
        exact ⟨spec, List.mem_cons_self spec rest, h1, hc.2, hc.1⟩
      · obtain ⟨s, hs, h1, h2, h3⟩ := ih h
        exact ⟨s, List.mem_cons_of_mem spec hs, h1, h2, h3⟩

/-- When `_check_required_configs` does not raise, no registered spec is
both required and absent. -/
theorem checkRequired_none (specs : List ConfigSpec) (pv : NS)
    (h : checkRequired specs pv = Option.none) :
    ∀ spec ∈ specs, spec.required = true →
      getattr_or_none pv spec.name ≠ Option.none := by
  induction specs with
  | nil => simp
  | cons spec rest ih =>
      unfold checkRequired at h
      split at h
      · cases h
      · rename_i hc
        intro s hs hreq habs
        rcases List.mem_cons.mp hs with hhead | htail
        · subst hhead
          exact hc ⟨habs, hreq⟩
        · exact ih h s htail hreq habs

/-- A successful `partially_parse_config` changes only `_parsed_values`:
the spec list of the returned state is the caller's spec list. -/
theorem partiallyParse_ok_specs (st st' : ParserState) (res : NS)
    (h : partiallyParseConfig st = .ok (st', res)) :
    st'.config_specs = st.config_specs := by
  unfold partiallyParseConfig at h
  split at h
  · cases h
  · split at h
    · cases h
    · simp only [Except.ok.injEq, Prod.mk.injEq] at h
      rw [← h.1]

/-- The `_get_configs_with_defaults` loop over a concatenation is the
sequential composition of the two loops. -/
theorem applyDefaultsLoop_append (gd : GlobalDefault) (xs ys : List ConfigSpec)
    (values : NS) :
    applyDefaultsLoop gd (xs ++ ys) values
      = match applyDefaultsLoop gd xs values with
        | .error e => .error e
        | .ok mid => applyDefaultsLoop gd ys mid := by
  induction xs generalizing values with
  | nil => simp [applyDefaultsLoop]
  | cons spec rest ih =>
      rw [List.cons_append, applyDefaultsLoop_cons, applyDefaultsLoop_cons]
      cases ha : spec.apply_default (getattr_or_none values spec.name) with
      | error e => simp
      | ok v =>
          cases v with
          | some v => simpa using ih (setattrG values spec.name v)
          | none =>
              cases gd with
              | noneSentinel => simpa using ih (setattrG values spec.name .none)
              | value v => simpa using ih (setattrG values spec.name v)
              | suppress => simpa using ih values

/-- A successful `_get_configs_with_defaults` loop over specs none of
which bears `name` leaves the entry for `name` unchanged. -/
theorem applyDefaultsLoop_preserves (gd : GlobalDefault)
    (specs : List ConfigSpec) (values res : NS) (name : String)
    (hn : ∀ s ∈ specs, s.name ≠ name)
    (h : applyDefaultsLoop gd specs values = .ok res) :
    lookupG res name = lookupG values name := by
  induction specs generalizing values with
  | nil =>
      simp only [applyDefaultsLoop, Except.ok.injEq] at h
      rw [← h]
  | cons spec rest ih =>
      have hne : spec.name ≠ name := hn spec (List.mem_cons_self spec rest)
      have hrest : ∀ s ∈ rest, s.name ≠ name :=
        fun s hs => hn s (List.mem_cons_of_mem spec hs)
      rw [applyDefaultsLoop_cons] at h
      split at h
      · cases h
      · exact (ih _ hrest h).trans (lookupG_setattr_ne _ _ _ _ hne)
      · split at h
        · exact (ih _ hrest h).trans (lookupG_setattr_ne _ _ _ _ hne)
        · exact (ih _ hrest h).trans (lookupG_setattr_ne _ _ _ _ hne)
        · exact ih _ hrest h

/-- If an item's `apply_default` returns the absent sentinel, the value
it was given was already absent — provided the spec is not a degenerate
const-family record with `const = NONE`, a shape the constructors cannot
build (see `configSpecCreate_const_wf`). -/
theorem apply_default_ok_none_absent (spec : ConfigSpec) (v : Option PyVal)
    (hwf : spec.action = .storeConst ∨ spec.action = .storeTrue ∨
           spec.action = .storeFalse → spec.const ≠ Option.none)
    (h : spec.apply_default v = .ok Option.none) : v = Option.none := by
  cases hact : spec.action with
  | store =>
      simp only [ConfigSpec.apply_default, hact] at h
      split at h
      · rename_i hc
        exact hc.1
      · injection h
  | storeConst =>
      simp only [ConfigSpec.apply_default, hact] at h
      cases v with
      | none => rfl
      | some pv =>
          cases pv <;> first
            | cases h
            | (injection h with h1; exact absurd h1 (hwf (Or.inl hact)))
  | storeTrue =>
      simp only [ConfigSpec.apply_default, hact] at h
      cases v with
      | none => rfl
      | some pv =>
          cases pv <;> first
            | cases h
            | (injection h with h1; exact absurd h1 (hwf (Or.inr (Or.inl hact))))
  | storeFalse =>
      simp only [ConfigSpec.apply_default, hact] at h
      cases v with
      | none => rfl
      | some pv =>
          cases pv <;> first
            | cases h
            | (injection h with h1; exact absurd h1 (hwf (Or.inr (Or.inr hact))))
  | append =>
      simp only [ConfigSpec.apply_default, hact] at h
      cases hd : spec.default with
      | none =>
          rw [hd] at h
          injection h
      | some d =>
          rw [hd] at h
          cases v with
          | none => rfl
          | some v' =>
              dsimp only at h
              cases hp : pyAdd d v' with
              | none => rw [hp] at h; cases h
              | some r =>
                  rw [hp] at h
                  injection h with h1
                  cases h1
  | count =>
      simp only [ConfigSpec.apply_default, hact] at h
      cases hd : spec.default with
      | none =>
          rw [hd] at h
          injection h
      | some d =>
          rw [hd] at h
          cases v with
          | none => rfl
          | some v' =>
              dsimp only at h
              cases hp : pyAdd d v' with
              | none => rw [hp] at h; cases h
              | some r =>
                  rw [hp] at h
                  injection h with h1
                  cases h1

/-- Every spec the factory builds has a real `const` whenever its action
is in the `store_const` family, justifying the hypothesis of
`apply_default_ok_none_absent`. -/
theorem configSpecCreate_const_wf (name : String) (k : Kwargs)
    (spec : ConfigSpec) (h : configSpecCreate name k = .ok spec) :
    spec.action = .storeConst ∨ spec.action = .storeTrue ∨
      spec.action = .storeFalse → spec.const ≠ Option.none := by
  unfold configSpecCreate at h
  split at h
  · cases h
  · split at h
    · unfold storeInit at h
      repeat' split at h
      all_goals first
                | exact Except.noConfusion h
                | (injection h with h1; subst h1; simp)
    · split at h
      · unfold storeConstInit at h
        repeat' split at h
        all_goals first
                | exact Except.noConfusion h
                | (injection h with h1; subst h1; simp)
      · split at h
        · unfold storeTrueInit at h
          repeat' split at h
          all_goals first
                | exact Except.noConfusion h
                | (injection h with h1; subst h1; simp)
        · split at h
          · unfold storeFalseInit at h
            repeat' split at h
            all_goals first
                | exact Except.noConfusion h
                | (injection h with h1; subst h1; simp)
          · split at h
            · unfold appendInit at h
              repeat' split at h
              all_goals first
                | exact Except.noConfusion h
                | (injection h with h1; subst h1; simp)
            · split at h
              · unfold countInit at h
                repeat' split at h
                all_goals first
                | exact Except.noConfusion h
                | (injection h with h1; subst h1; simp)
              · cases h

/-- Position of an absent item inside a full defaulting pass: the final
entry under the item's name is determined by the global policy (the
surrounding specs bear other names). -/
theorem lookup_after_defaults_of_absent (gd : GlobalDefault)
    (xs ys : List ConfigSpec) (spec : ConfigSpec) (pv res : NS)
    (hx : ∀ s ∈ xs, s.name ≠ spec.name) (hy : ∀ s ∈ ys, s.name ≠ spec.name)
    (habs : spec.apply_default (getattr_or_none pv spec.name) = .ok Option.none)
    (hres : applyDefaultsLoop gd (xs ++ spec :: ys) pv = .ok res) :
    lookupG res spec.name
      = match gd with
        | .noneSentinel => some .none
        | .value v => some v
        | .suppress => lookupG pv spec.name := by
  rw [applyDefaultsLoop_append] at hres
  cases hm : applyDefaultsLoop gd xs pv with
  | error e => rw [hm] at hres; cases hres
  | ok mid =>
      rw [hm] at hres
      dsimp only at hres
      have hmid : lookupG mid spec.name = lookupG pv spec.name :=
        applyDefaultsLoop_preserves gd xs pv mid spec.name hx hm
      rw [applyDefaultsLoop_cons] at hres
      have habs' : spec.apply_default (getattr_or_none mid spec.name)
          = .ok Option.none := by
        show spec.apply_default (lookupG mid spec.name) = _
        rw [hmid]
        exact habs
      rw [habs'] at hres
      cases gd with
      | noneSentinel =>
          have hres' : applyDefaultsLoop .noneSentinel ys
              (setattrG mid spec.name .none) = .ok res := hres
          show lookupG res spec.name = some .none
          rw [applyDefaultsLoop_preserves _ ys _ res spec.name hy hres']
          exact lookupG_setattr_self mid spec.name .none
      | value v =>
          have hres' : applyDefaultsLoop (.value v) ys
              (setattrG mid spec.name v) = .ok res := hres
          show lookupG res spec.name = some v
          rw [applyDefaultsLoop_preserves _ ys _ res spec.name hy hres']
          exact lookupG_setattr_self mid spec.name v
      | suppress =>
          have hres' : applyDefaultsLoop .suppress ys mid = .ok res := hres
          show lookupG res spec.name = lookupG pv spec.name
          rw [applyDefaultsLoop_preserves _ ys _ res spec.name hy hres']
          exact hmid

end Multiconfig

/-- C1: the spec demands that every name failing the identifier pattern
be rejected by `add_config` with a validation error, but `_set_name` uses
anchored `re.match` for both regexes and therefore checks only the first
character: the non-matching names `"a-b"` and `""` are accepted
(`add_config` succeeds on them), while `"0ab"` is rejected and the
matching name `"c1"` is accepted. -/
theorem C1_first_char_only_name_validation :
    Multiconfig.spec_ident_pattern "a-b" = false ∧
    (Multiconfig.addConfig (Multiconfig.initParser (.value .none)) "a-b" {}).isOk = true ∧
    Multiconfig.spec_ident_pattern "" = false ∧
    (Multiconfig.addConfig (Multiconfig.initParser (.value .none)) "" {}).isOk = true ∧
    Multiconfig.spec_ident_pattern "0ab" = false ∧
    (Multiconfig.addConfig (Multiconfig.initParser (.value .none)) "0ab" {}).isOk = false ∧
    Multiconfig.spec_ident_pattern "c1" = true ∧
    (Multiconfig.addConfig (Multiconfig.initParser (.value .none)) "c1" {}).isOk = true := by
  refine ⟨by decide, rfl, by decide, rfl, by decide, rfl, by decide, rfl⟩

/-- C2 counterexample: in the C2 scenario the resolution pass fails with
`InvalidChoiceError` on item `b`, yet the count accumulated for item `a`
before the failure stays in the parser: a subsequent resolution (after
the argparse source is notified of an empty command line, so no new data
arrives) returns `a = 1`, while the same parser without the failed pass
returns `a = None`.  The observable state is NOT as if the failed pass
had never run. -/
theorem C2_cex_failed_pass_observable :
    Multiconfig.parseError Multiconfig.c2Failed
      = some (.invalidChoice "b" (.int 3)) ∧
    Multiconfig.parseResult
        (Multiconfig.notifySource (Multiconfig.stateAfterParse Multiconfig.c2Failed) 0 [])
      = some [("a", .int 1), ("b", .none)] ∧
    Multiconfig.parseResult (Multiconfig.notifySource Multiconfig.c2Parser 0 [])
      = some [("a", .none), ("b", .none)] := by
  refine ⟨by decide, by decide, by decide⟩

/-- C3 counterexample: with a `count` item `a` and a dict source
mentioning it, the first `parse_config` call returns `a = 1` but a second
call on the same parser returns `a = 2`: the second resolution pass
starts from the previous pass's accumulated value, not from the absent
sentinel. -/
theorem C3_cex_second_pass_continues :
    Multiconfig.parseResult Multiconfig.c3Parser = some [("a", .int 1)] ∧
    Multiconfig.parseResult (Multiconfig.stateAfterParse Multiconfig.c3Parser)
      = some [("a", .int 2)] := by
  refine ⟨by decide, by decide⟩

/-- C9 counterexample: `JsonSource` given BOTH a path and a fileobj does
not fail when the path is the empty string (both arguments supplied, yet
`if path and fileobj:` is falsy): construction succeeds and reads the
document from the fileobj. -/
theorem C9_cex_empty_path_and_fileobj_accepted :
    Multiconfig.jsonSourceInit (fun _ => Option.none) [] (some "")
        (some { jsonDoc := some [("k", .int 1)] })
      = .ok (.dict [] [("k", .int 1)]) := by
  rfl

/-- C2 amended: a coercion or choice-check failure aborts the resolution
pass (the call raises), but item values merged before the failing item
remain in the parser's running value store and ARE externally observable
afterwards: for any prior count `n`, the failing C2 pass raises
`InvalidChoiceError` for `b` yet leaves `a = n + 1` in `_parsed_values`,
and a subsequent resolution with no additional data surfaces `a = n + 1`
in its result. -/
theorem C2_amended_merged_values_persist (n : Int) :
    Multiconfig.parseError
        { Multiconfig.c2Failed with parsed_values := [("a", .int n)] }
      = some (.invalidChoice "b" (.int 3)) ∧
    (Multiconfig.stateAfterParse
        { Multiconfig.c2Failed with parsed_values := [("a", .int n)] }).parsed_values
      = [("a", .int (n + 1))] ∧
    Multiconfig.parseResult
        (Multiconfig.notifySource
          (Multiconfig.stateAfterParse
            { Multiconfig.c2Failed with parsed_values := [("a", .int n)] }) 0 [])
      = some [("a", .int (n + 1)), ("b", .none)] := by
  refine ⟨rfl, rfl, rfl⟩

/-- C2 amended, concrete instance at `n = 0`. -/
theorem C2_amended_merged_values_persist_witness :
    Multiconfig.parseError
        { Multiconfig.c2Failed with parsed_values := [("a", .int 0)] }
      = some (.invalidChoice "b" (.int 3)) ∧
    (Multiconfig.stateAfterParse
        { Multiconfig.c2Failed with parsed_values := [("a", .int 0)] }).parsed_values
      = [("a", .int (0 + 1))] ∧
    Multiconfig.parseResult
        (Multiconfig.notifySource
          (Multiconfig.stateAfterParse
            { Multiconfig.c2Failed with parsed_values := [("a", .int 0)] }) 0 [])
      = some [("a", .int (0 + 1)), ("b", .none)] :=
  C2_amended_merged_values_persist 0

/-- C3 amended: every item's accumulated value starts from the absent
sentinel when the parser object is constructed, but `_parsed_values`
persists across resolution passes: after `k + 1` passes of the C3
scenario the count item `a` holds `k + 1`, i.e. each pass continues from
the previous pass's accumulated values rather than restarting from
absent. -/
theorem C3_amended_absent_at_construction_persistent_across_passes :
    (∀ (gd : Multiconfig.GlobalDefault) (name : String),
      Multiconfig.getattr_or_none (Multiconfig.initParser gd).parsed_values name
        = Option.none) ∧
    (∀ k : Nat, Multiconfig.parseNTimes Multiconfig.c3Parser (k + 1)
        = { Multiconfig.c3Parser with
            parsed_values := [("a", .int ((k : Int) + 1))] }) := by
  constructor
  · intro gd name
    rfl
  · intro k
    induction k with
    | zero => rfl
    | succ k ih =>
        show Multiconfig.stateAfterParse (Multiconfig.parseNTimes Multiconfig.c3Parser (k + 1)) = _
        rw [ih, Multiconfig.stateAfterParse_c3_step]
        have : ((k : Int) + 1) + 1 = ((k + 1 : Nat) : Int) + 1 := by push_cast; ring
        rw [this]

/-- C3 amended, concrete instance: absence at construction for item `a`
under the default policy, and the two-pass count. -/
theorem C3_amended_witness :
    Multiconfig.getattr_or_none
        (Multiconfig.initParser (.value .none)).parsed_values "a" = Option.none ∧
    Multiconfig.parseNTimes Multiconfig.c3Parser 2
      = { Multiconfig.c3Parser with
          parsed_values := [("a", .int ((1 : Int) + 1))] } := by
  refine ⟨C3_amended_absent_at_construction_persistent_across_passes.1 _ "a", ?_⟩
  have h := C3_amended_absent_at_construction_persistent_across_passes.2 1
  simpa using h

/-- C5: for the APPEND item with default `[0]`, an earlier source
contributing `1` and a later source contributing `2`, resolution returns
`[0, 1, 2]` (default prepended exactly once, source contributions in
registration-then-batch order); accumulation over a concatenation of raw
batches equals the sequential composition of the two folds (so the
result is independent of chunking within a source); and with no default
set, `apply_default` of an `append` spec returns the accumulated value
unchanged (absent stays absent). -/
theorem C5_append_default_prefix_and_chunking :
    Multiconfig.parseResult Multiconfig.c5Parser
      = some [("c", .list [.int 0, .int 1, .int 2])] ∧
    (∀ (spec : Multiconfig.ConfigSpec) (c : Option Multiconfig.PyVal)
        (xs ys : List Multiconfig.PyVal),
      spec.accumulate_values c (xs ++ ys)
        = match spec.accumulate_values c xs with
          | .error e => .error e
          | .ok c' => spec.accumulate_values c' ys) ∧
    (∀ (name : String) (t : Multiconfig.PyVal → Option Multiconfig.PyVal)
        (req : Bool) (ch : Option (List Multiconfig.PyVal))
        (cst : Option Multiconfig.PyVal) (hp : Option String)
        (v : Option Multiconfig.PyVal),
      Multiconfig.ConfigSpec.apply_default
        { name := name, type := t, required := req, action := .append,
          default := Option.none, choices := ch, const := cst, help := hp } v
        = .ok v) := by
  refine ⟨rfl, Multiconfig.accumulate_values_append, ?_⟩
  intro name t req ch cst hp v
  rfl

/-- C5, concrete instance: chunking `["1", "2"]` as one batch or as two
for a store spec gives the same fold, and `apply_default` with no
default passes `[5]` through unchanged. -/
theorem C5_witness :
    (Multiconfig.ConfigSpec.accumulate_values Multiconfig.c8Spec Option.none
        ([.str "1"] ++ [.str "2"])
      = match Multiconfig.ConfigSpec.accumulate_values Multiconfig.c8Spec
            Option.none [.str "1"] with
        | .error e => .error e
        | .ok c' => Multiconfig.ConfigSpec.accumulate_values Multiconfig.c8Spec
            c' [.str "2"]) ∧
    Multiconfig.ConfigSpec.apply_default
        { name := "c", type := Multiconfig.pyInt, required := false,
          action := .append, default := Option.none, choices := Option.none,
          const := Option.none, help := Option.none }
        (some (.list [.int 5]))
      = .ok (some (.list [.int 5])) :=
  ⟨C5_append_default_prefix_and_chunking.2.1 Multiconfig.c8Spec Option.none
      [.str "1"] [.str "2"],
   C5_append_default_prefix_and_chunking.2.2 "c" Multiconfig.pyInt false
      Option.none Option.none Option.none (some (.list [.int 5]))⟩

/-- C7: each source binds to a snapshot of the items registered before
it.  Concretely: with item `c1`, then a dict source whose dict also has
key `c3`, then item `c3`, then a second source supplying `c3`, the
result surfaces `c3 = "y"` from the later source; without the second
source, `c3` is `None` even though the first source's dict contains the
key `c3`.  Generally, the raw batch of a dict source has an entry for
`name` iff some spec of the source's snapshot is named `name` and the
dict has that key. -/
theorem C7_sources_bound_to_spec_snapshot :
    Multiconfig.parseResult Multiconfig.c7Parser
      = some [("c1", .str "v1"), ("c3", .str "y")] ∧
    Multiconfig.parseResult Multiconfig.c7ParserNoSecond
      = some [("c1", .str "v1"), ("c3", .none)] ∧
    (∀ (specs : List Multiconfig.ConfigSpec) (d : List (String × Multiconfig.PyVal))
        (name : String),
      Multiconfig.hasattrG (Multiconfig.dictSourceParse specs d) name = true ↔
        ∃ spec ∈ specs, spec.name = name ∧
          (Multiconfig.lookupG d name).isSome = true) := by
  refine ⟨rfl, rfl, ?_⟩
  intro specs d name
  rw [Multiconfig.dictSourceParse, Multiconfig.hasattr_dictSourceParseAux]
  simp [Multiconfig.hasattrG, Multiconfig.lookupG]

/-- C7, concrete instance: a dict source whose snapshot is empty
surfaces nothing, even for keys present in its dict. -/
theorem C7_witness :
    Multiconfig.hasattrG (Multiconfig.dictSourceParse [] [("c3", .str "x")]) "c3"
      = false := by
  have h := (C7_sources_bound_to_spec_snapshot.2.2 [] [("c3", .str "x")] "c3")
  simp only [List.not_mem_nil] at h
  cases hb : Multiconfig.hasattrG (Multiconfig.dictSourceParse [] [("c3", .str "x")]) "c3"
  · rfl
  · exact absurd (h.mp hb) (by simp)

/-- C4: `parse_config` raises `RequiredConfigNotFoundError`, naming the
item, iff some item with `required=True` has an absent accumulated value
in `_parsed_values` after all sources are merged (the check runs before
any item-level or global defaulting), while `partially_parse_config`
never raises it for the same inputs.  Because the check precedes
defaulting, a required item whose only value comes from its item-level
default still fails `parse_config` (concretely: the witness). -/
theorem C4_required_raised_iff_merged_absent (st : Multiconfig.ParserState) :
    (∀ (n : String) (stE : Multiconfig.ParserState),
        Multiconfig.partiallyParseConfig st
          ≠ .error (.requiredConfigNotFound n, stE)) ∧
    (∀ (n : String) (stE : Multiconfig.ParserState),
        Multiconfig.parseConfig st = .error (.requiredConfigNotFound n, stE) →
          ∃ spec ∈ stE.config_specs, spec.name = n ∧ spec.required = true ∧
            Multiconfig.getattr_or_none stE.parsed_values spec.name
              = Option.none) ∧
    (∀ (st' : Multiconfig.ParserState) (res : Multiconfig.NS),
        Multiconfig.partiallyParseConfig st = .ok (st', res) →
        (∃ spec ∈ st'.config_specs, spec.required = true ∧
            Multiconfig.getattr_or_none st'.parsed_values spec.name
              = Option.none) →
        ∃ n : String, Multiconfig.parseConfig st
          = .error (.requiredConfigNotFound n, st')) := by
  refine ⟨fun n stE => Multiconfig.partiallyParse_ne_required st n stE, ?_, ?_⟩
  · intro n stE h
    unfold Multiconfig.parseConfig at h
    split at h
    · rename_i ep hm
      injection h with h1
      exact absurd (h1 ▸ hm) (Multiconfig.partiallyParse_ne_required st n stE)
    · split at h
      · rename_i hc
        simp only [Except.error.injEq, Prod.mk.injEq,
          Multiconfig.PyErr.requiredConfigNotFound.injEq] at h
        obtain ⟨hn, hstE⟩ := h
        subst hn
        subst hstE
        exact Multiconfig.checkRequired_some _ _ _ hc
      · cases h
  · intro st' res hok hex
    unfold Multiconfig.parseConfig
    rw [hok]
    cases hc : Multiconfig.checkRequired st'.config_specs st'.parsed_values with
    | none =>
        obtain ⟨spec, hs, hreq, habs⟩ := hex
        exact absurd habs (Multiconfig.checkRequired_none _ _ hc spec hs hreq)
    | some n' =>
        exact ⟨n', by simp [hc]⟩

/-- C4, concrete instance: the C4 scenario's required `append` item with
an item-level default and no sources makes `parse_config` raise
`RequiredConfigNotFoundError` even though `partially_parse_config`
returns the item-level default. -/
theorem C4_witness :
    (∃ (n : String) (stE : Multiconfig.ParserState),
        Multiconfig.parseConfig Multiconfig.c4Parser
          = .error (.requiredConfigNotFound n, stE)) ∧
    Multiconfig.partialParseResult Multiconfig.c4Parser
      = some [("c1", .list [.str "v0"])] := by
  constructor
  · have h3 := (C4_required_raised_iff_merged_absent Multiconfig.c4Parser).2.2
    have hok : Multiconfig.partiallyParseConfig Multiconfig.c4Parser
        = .ok (Multiconfig.c4Parser, [("c1", .list [.str "v0"])]) := rfl
    have hspecs : Multiconfig.c4Parser.config_specs = [Multiconfig.c4Spec] := rfl
    have hex : ∃ spec ∈ Multiconfig.c4Parser.config_specs, spec.required = true ∧
        Multiconfig.getattr_or_none Multiconfig.c4Parser.parsed_values spec.name
          = Option.none := by
      refine ⟨Multiconfig.c4Spec, ?_, rfl, rfl⟩
      rw [hspecs]
      exact List.mem_singleton.mpr rfl
    obtain ⟨n, hn⟩ := h3 Multiconfig.c4Parser [("c1", .list [.str "v0"])] hok hex
    exact ⟨n, Multiconfig.c4Parser, hn⟩
  · rfl

/-- C6: for an item whose value is still absent after its own
`apply_default` (in a parser whose item names are distinct, with a spec
the factory can build — const-family specs always carry a real `const`,
see `Multiconfig.configSpecCreate_const_wf`): under an explicit fallback
policy the result maps the item to the fallback value; under the `NONE`
sentinel policy it maps the item to an explicit Python `None`; under
`SUPPRESS` the result has no entry for the item at all. -/
theorem C6_global_default_policy (specs : List Multiconfig.ConfigSpec)
    (srcs : List Multiconfig.Src) (pv : Multiconfig.NS)
    (spec : Multiconfig.ConfigSpec)
    (hmem : spec ∈ specs)
    (hnodup : (specs.map Multiconfig.ConfigSpec.name).Nodup)
    (hwf : spec.action = .storeConst ∨ spec.action = .storeTrue ∨
           spec.action = .storeFalse → spec.const ≠ Option.none)
    (habs : spec.apply_default (Multiconfig.getattr_or_none pv spec.name)
              = .ok Option.none) :
    (∀ (v : Multiconfig.PyVal) (res : Multiconfig.NS),
        Multiconfig.getConfigsWithDefaults ⟨specs, srcs, pv, .value v⟩ = .ok res →
        Multiconfig.lookupG res spec.name = some v) ∧
    (∀ res : Multiconfig.NS,
        Multiconfig.getConfigsWithDefaults ⟨specs, srcs, pv, .noneSentinel⟩ = .ok res →
        Multiconfig.lookupG res spec.name = some .none) ∧
    (∀ res : Multiconfig.NS,
        Multiconfig.getConfigsWithDefaults ⟨specs, srcs, pv, .suppress⟩ = .ok res →
        Multiconfig.lookupG res spec.name = Option.none) := by
  obtain ⟨xs, ys, rfl⟩ := List.append_of_mem hmem
  rw [List.map_append, List.map_cons] at hnodup
  obtain ⟨h1, h2, hdisj⟩ := List.nodup_append.mp hnodup
  have hnotin_ys : spec.name ∉ ys.map Multiconfig.ConfigSpec.name :=
    (List.nodup_cons.mp h2).1
  have hy : ∀ s ∈ ys, s.name ≠ spec.name := by
    intro s hs heq
    exact hnotin_ys (heq ▸ List.mem_map_of_mem Multiconfig.ConfigSpec.name hs)
  have hx : ∀ s ∈ xs, s.name ≠ spec.name := by
    intro s hs heq
    exact hdisj (List.mem_map_of_mem Multiconfig.ConfigSpec.name hs)
      (heq ▸ List.mem_cons_self spec.name (ys.map Multiconfig.ConfigSpec.name))
  refine ⟨?_, ?_, ?_⟩
  · intro v res hres
    have h := Multiconfig.lookup_after_defaults_of_absent (.value v) xs ys spec
      pv res hx hy habs hres
    exact h
  · intro res hres
    have h := Multiconfig.lookup_after_defaults_of_absent .noneSentinel xs ys spec
      pv res hx hy habs hres
    exact h
  · intro res hres
    have h := Multiconfig.lookup_after_defaults_of_absent .suppress xs ys spec
      pv res hx hy habs hres
    rw [h]
    have habsent : Multiconfig.getattr_or_none pv spec.name = Option.none :=
      Multiconfig.apply_default_ok_none_absent spec _ hwf habs
    exact habsent

/-- C6, concrete instance: a `store` item `a` with no default and no
source value, under each of the three policies. -/
theorem C6_witness :
    (Multiconfig.getConfigsWithDefaults
        ⟨[Multiconfig.c6Spec], [], [], .value (.int 7)⟩ = .ok [("a", .int 7)] ∧
      Multiconfig.lookupG [("a", Multiconfig.PyVal.int 7)] "a" = some (.int 7)) ∧
    (Multiconfig.getConfigsWithDefaults
        ⟨[Multiconfig.c6Spec], [], [], .noneSentinel⟩ = .ok [("a", .none)] ∧
      Multiconfig.lookupG [("a", Multiconfig.PyVal.none)] "a" = some .none) ∧
    (Multiconfig.getConfigsWithDefaults
        ⟨[Multiconfig.c6Spec], [], [], .suppress⟩ = .ok [] ∧
      Multiconfig.lookupG ([] : Multiconfig.NS) "a" = Option.none) := by
  have h := C6_global_default_policy [Multiconfig.c6Spec] [] [] Multiconfig.c6Spec
    (List.mem_singleton.mpr rfl) (by simp) (by decide) rfl
  refine ⟨⟨rfl, ?_⟩, ⟨rfl, ?_⟩, ⟨rfl, ?_⟩⟩
  · exact h.1 (.int 7) [("a", .int 7)] rfl
  · exact h.2.1 [("a", .none)] rfl
  · exact h.2.2 [] rfl

/-- C8: for a `store` or `append` item with a choices set, when the
item's `type` coerces the raw value successfully, `InvalidChoiceError`
is raised iff the coerced value is not in `choices`; a raw value whose
coercion lands in `choices` never raises `InvalidChoiceError` (for
`store`, accumulation then returns exactly the coerced value). -/
theorem C8_invalid_choice_iff_coerced_outside_choices
    (spec : Multiconfig.ConfigSpec) (cs : List Multiconfig.PyVal)
    (cur : Option Multiconfig.PyVal) (raw v : Multiconfig.PyVal)
    (hact : spec.action = .store ∨ spec.action = .append)
    (hch : spec.choices = some cs)
    (hco : spec.type raw = some v) :
    (spec.accumulate_value cur raw = .error (.invalidChoice spec.name v)
       ↔ cs.contains v = false) ∧
    (∀ (n : String) (w : Multiconfig.PyVal), cs.contains v = true →
        spec.accumulate_value cur raw ≠ .error (.invalidChoice n w)) ∧
    (spec.action = .store → cs.contains v = true →
        spec.accumulate_value cur raw = .ok v) := by
  rcases hact with hact | hact <;>
    simp only [Multiconfig.ConfigSpec.accumulate_value, hact, hco, hch] <;>
    cases hc : cs.contains v <;>
    simp [hc, hact, Multiconfig.appendCombine_ne_invalidChoice]

/-- C8, concrete instance: a `store` item with `type=int` and
`choices=[1, 2]`: the raw string `"1"` coerces to the permitted `1` and
accumulates without raising; the raw string `"3"` coerces to `3` and
raises `InvalidChoiceError` naming the item and the coerced value. -/
theorem C8_witness :
    Multiconfig.ConfigSpec.accumulate_value Multiconfig.c8Spec Option.none (.str "1")
      = .ok (.int 1) ∧
    Multiconfig.ConfigSpec.accumulate_value Multiconfig.c8Spec Option.none (.str "3")
      = .error (.invalidChoice "c1" (.int 3)) := by
  have h1 := C8_invalid_choice_iff_coerced_outside_choices Multiconfig.c8Spec
    [.int 1, .int 2] Option.none (.str "1") (.int 1) (Or.inl rfl) rfl rfl
  have h3 := C8_invalid_choice_iff_coerced_outside_choices Multiconfig.c8Spec
    [.int 1, .int 2] Option.none (.str "3") (.int 3) (Or.inl rfl) rfl rfl
  exact ⟨h1.2.2 rfl (by decide), h3.1.mpr (by decide)⟩

/-- C9 amended: `JsonSource` construction fails with `ValueError` when a
truthy (non-empty) path and a fileobj are both supplied; an empty-string
path is falsy and treated as not supplied (the C9 counterexample); when
neither argument is effectively supplied, construction still fails, but
with the incidental error of `json.load(None)` rather than the dedicated
`ValueError`; with exactly one effectively supplied and a decodable
document, construction succeeds, reading the document once into a
`DictSource` over the spec snapshot. -/
theorem C9_amended_truthiness_exclusive_inputs
    (fs : String → Option (List (String × Multiconfig.PyVal)))
    (specs : List Multiconfig.ConfigSpec) (p : String) (f : Multiconfig.FileObj)
    (doc doc' : List (String × Multiconfig.PyVal)) (hp : p ≠ "") :
    Multiconfig.jsonSourceInit fs specs (some p) (some f) = .error .valueError ∧
    Multiconfig.jsonSourceInit fs specs Option.none Option.none
      = .error .attributeError ∧
    Multiconfig.jsonSourceInit fs specs (some "") Option.none
      = .error .attributeError ∧
    (fs p = some doc →
      Multiconfig.jsonSourceInit fs specs (some p) Option.none
        = .ok (.dict specs doc)) ∧
    (f.jsonDoc = some doc' →
      Multiconfig.jsonSourceInit fs specs Option.none (some f)
        = .ok (.dict specs doc')) := by
  refine ⟨?_, rfl, rfl, ?_, ?_⟩
  · simp [Multiconfig.jsonSourceInit, Multiconfig.truthyPath, hp]
  · intro hfs
    simp [Multiconfig.jsonSourceInit, Multiconfig.truthyPath, hp,
      Multiconfig.jsonGet, hfs]
  · intro hdoc
    simp [Multiconfig.jsonSourceInit, Multiconfig.truthyPath,
      Multiconfig.jsonGet, Multiconfig.jsonLoadFileobj, hdoc]

/-- C9 amended, concrete instance: both supplied (non-empty path) fails
with `ValueError`; neither supplied fails; exactly one supplied
succeeds, from a path or from a stream. -/
theorem C9_amended_witness :
    Multiconfig.jsonSourceInit
        (fun q => if q = "cfg.json" then some [("k", .int 1)] else Option.none)
        [] (some "cfg.json") (some { jsonDoc := some [("k", .int 2)] })
      = .error .valueError ∧
    Multiconfig.jsonSourceInit
        (fun q => if q = "cfg.json" then some [("k", .int 1)] else Option.none)
        [] Option.none Option.none
      = .error .attributeError ∧
    Multiconfig.jsonSourceInit
        (fun q => if q = "cfg.json" then some [("k", .int 1)] else Option.none)
        [] (some "cfg.json") Option.none
      = .ok (.dict [] [("k", .int 1)]) ∧
    Multiconfig.jsonSourceInit
        (fun q => if q = "cfg.json" then some [("k", .int 1)] else Option.none)
        [] Option.none (some { jsonDoc := some [("k", .int 2)] })
      = .ok (.dict [] [("k", .int 2)]) := by
  have h := C9_amended_truthiness_exclusive_inputs
    (fun q => if q = "cfg.json" then some [("k", .int 1)] else Option.none)
    [] "cfg.json" { jsonDoc := some [("k", .int 2)] }
    [("k", .int 1)] [("k", .int 2)] (by decide)
  exact ⟨h.1, h.2.1, h.2.2.2.1 (by simp), h.2.2.2.2 rfl⟩

/-- C10: an item created with a `store_const`-family action has
`required = False` fixed by the constructor — a caller-supplied
`required` keyword is rejected at construction with a `TypeError`
(duplicate keyword argument) rather than honored — and whenever
`parse_config` raises `RequiredConfigNotFoundError`, the item it names
is one registered with `required = True`, so such an item can never be
the cause. -/
theorem C10_const_family_required_fixed_false (name : String)
    (k : Multiconfig.Kwargs) :
    (k.action = "store_const" ∨ k.action = "store_true" ∨
        k.action = "store_false" →
      (∀ spec : Multiconfig.ConfigSpec,
          Multiconfig.configSpecCreate name k = .ok spec →
            spec.required = false) ∧
      (k.required.isSome = true →
          (Multiconfig.configSpecCreate name k).isOk = false)) ∧
    (∀ (st stE : Multiconfig.ParserState) (n : String),
        Multiconfig.parseConfig st = .error (.requiredConfigNotFound n, stE) →
        ∃ spec ∈ st.config_specs, spec.name = n ∧ spec.required = true) := by
  constructor
  · intro hact
    have hne1 : k.action ≠ "append_const" ∧ k.action ≠ "extend" ∧
        k.action ≠ "store" := by
      rcases hact with h | h | h <;> rw [h] <;> exact ⟨by decide, by decide, by decide⟩
    constructor
    · intro spec h
      unfold Multiconfig.configSpecCreate at h
      rw [if_neg (by rcases hne1 with ⟨h1, h2, -⟩; rintro (hc | hc) <;> simp_all)] at h
      rw [if_neg (by simp [hne1.2.2])] at h
      rcases hact with ha | ha | ha <;> rw [ha] at h
      · rw [if_pos rfl] at h
        unfold Multiconfig.storeConstInit at h
        repeat' split at h
        all_goals first
          | exact Except.noConfusion h
          | (injection h with h1; subst h1; rfl)
      · rw [if_neg (by decide), if_pos rfl] at h
        unfold Multiconfig.storeTrueInit at h
        repeat' split at h
        all_goals first
          | exact Except.noConfusion h
          | (injection h with h1; subst h1; rfl)
      · rw [if_neg (by decide), if_neg (by decide), if_pos rfl] at h
        unfold Multiconfig.storeFalseInit at h
        repeat' split at h
        all_goals first
          | exact Except.noConfusion h
          | (injection h with h1; subst h1; rfl)
    · intro hreq
      unfold Multiconfig.configSpecCreate
      rw [if_neg (by rcases hne1 with ⟨h1, h2, -⟩; rintro (hc | hc) <;> simp_all)]
      rw [if_neg (by simp [hne1.2.2])]
      rcases hact with ha | ha | ha <;> rw [ha]
      · rw [if_pos rfl]
        unfold Multiconfig.storeConstInit
        cases hc : k.const with
        | none => rfl
        | some c => simp [hreq, Except.isOk, Except.toBool]
      · rw [if_neg (by decide), if_pos rfl]
        unfold Multiconfig.storeTrueInit
        simp [hreq, Except.isOk, Except.toBool]
      · rw [if_neg (by decide), if_neg (by decide), if_pos rfl]
        unfold Multiconfig.storeFalseInit
        simp [hreq, Except.isOk, Except.toBool]
  · intro st stE n h
    unfold Multiconfig.parseConfig at h
    split at h
    · rename_i ep hm
      injection h with h1
      exact absurd (h1 ▸ hm) (Multiconfig.partiallyParse_ne_required st n stE)
    · rename_i st1 res1 hok1
      split at h
      · rename_i hc
        simp only [Except.error.injEq, Prod.mk.injEq,
          Multiconfig.PyErr.requiredConfigNotFound.injEq] at h
        obtain ⟨hn, hstE⟩ := h
        subst hn
        obtain ⟨spec, hs, h1, h2, h3⟩ := Multiconfig.checkRequired_some _ _ _ hc
        refine ⟨spec, ?_, h1, h2⟩
        rw [← Multiconfig.partiallyParse_ok_specs st st1 res1 hok1]
        exact hs
      · cases h

/-- C10, concrete instance: `add_config("x", action="store_true")`
builds a spec with `required = False`; passing `required=False`
explicitly is rejected with a `TypeError`; and the C4 scenario's
`RequiredConfigNotFoundError` names its (store-family) `required=True`
item. -/
theorem C10_witness :
    Multiconfig.configSpecCreate "x" { action := "store_true" }
      = .ok Multiconfig.c10Spec ∧
    Multiconfig.c10Spec.required = false ∧
    (Multiconfig.configSpecCreate "x"
        { action := "store_true", required := some false }).isOk = false := by
  have h := (C10_const_family_required_fixed_false "x"
    { action := "store_true" }).1 (Or.inr (Or.inl rfl))
  have h2 := (C10_const_family_required_fixed_false "x"
    { action := "store_true", required := some false }).1 (Or.inr (Or.inl rfl))
  exact ⟨rfl, h.1 Multiconfig.c10Spec rfl, h2.2 rfl⟩
